import Mathlib

/-!
KKMoon 858D hot-air station firmware: the header `kkmoon858d.h`

A shallow embedding of the constants and of the port macros declared in
`src/kkmoon858d/kkmoon858d.h`, followed by the properties of them that the
specification relies on.

Conventions of the embedding.

* The I/O registers `PORTB`, `PINB` and `PINC` are 8-bit; a register value is a
  `Nat` below `256` and every store into a register is reduced `% 256`.
* On the AVR target `int` is 16 bits wide, and `~m` is computed in `int`; its
  bit pattern is `0xFFFF ^^^ m`.
* A macro that assigns to `PORTB` is a function from the old register value to
  the new one.  A macro that is a C condition is a function to the `int` the
  expression yields; it holds when that value is non-zero.
* Plain integer constants (`int` literals) are `Int`; bit numbers and tick
  counts, which are only ever shifted by or counted, are `Nat`.
-/

namespace KKMoon858D

/-! ## Bit names of the toolchain -/

/-- Modelled from the spec: the bit names `PB0 .. PB5` of port B are used by
`kkmoon858d.h` but declared by the AVR toolchain header; `PBn` is the bit
number `n`. -/
def PB0 : Nat := 0

/-- Modelled from the spec: toolchain bit name, `PBn = n`. -/
def PB1 : Nat := 1

/-- Modelled from the spec: toolchain bit name, `PBn = n`. -/
def PB2 : Nat := 2

/-- Modelled from the spec: toolchain bit name, `PBn = n`. -/
def PB3 : Nat := 3

/-- Modelled from the spec: toolchain bit name, `PBn = n`. -/
def PB4 : Nat := 4

/-- Modelled from the spec: toolchain bit name, `PBn = n`. -/
def PB5 : Nat := 5

/-- Modelled from the spec: toolchain bit name of port C, `PCn = n`. -/
def PC2 : Nat := 2

/-- Modelled from the spec: toolchain bit name of port C, `PCn = n`. -/
def PC3 : Nat := 3

/-- Modelled from the spec: toolchain bit name of port C, `PCn = n`. -/
def PC4 : Nat := 4

/-- Modelled from the spec: the toolchain macro `_BV(bit)`, which is
`1 << bit`. -/
def _BV (bit : Nat) : Nat := 1 <<< bit

/-! ## C operators on the 8-bit registers -/

/-- Width of an I/O register store: values are kept modulo `256`. -/
def REG_MOD : Nat := 256

/-- The C operator `~` on a 16-bit `int`, as a bit pattern. -/
def int_not (m : Nat) : Nat := 0xFFFF ^^^ (m % 0x10000)

/-- The C operator `!`: `1` when the operand is zero, `0` otherwise. -/
def c_not (v : Nat) : Nat := if v = 0 then 1 else 0

/-- The statement `PORTB |= m`: the new value of the register. -/
def or_assign (reg m : Nat) : Nat := (reg ||| m) % REG_MOD

/-- The statement `PORTB &= m`: the new value of the register. -/
def and_assign (reg m : Nat) : Nat := (reg &&& m) % REG_MOD

/-! ## Port macros (lines 63 to 94 of the header) -/

/-- `#define FAN_OFF ( PORTB |= _BV(PB4) )` -/
def FAN_OFF (PORTB : Nat) : Nat := or_assign PORTB (_BV PB4)

/-- `#define FAN_ON  ( PORTB &= ~_BV(PB4) )` -/
def FAN_ON (PORTB : Nat) : Nat := and_assign PORTB (int_not (_BV PB4))

/-- `#define FAN_IS_ON ( !(PINB & _BV(PB4)) )` -/
def FAN_IS_ON (PINB : Nat) : Nat := c_not (PINB &&& _BV PB4)

/-- `#define FAN_IS_OFF ( PINB & _BV(PB4) )` -/
def FAN_IS_OFF (PINB : Nat) : Nat := PINB &&& _BV PB4

/-- `#define FAN_MAX_OFF ( PORTB &= ~_BV(PB5) )` -/
def FAN_MAX_OFF (PORTB : Nat) : Nat := and_assign PORTB (int_not (_BV PB5))

/-- `#define FAN_MAX_ON  ( PORTB |= _BV(PB5) )` -/
def FAN_MAX_ON (PORTB : Nat) : Nat := or_assign PORTB (_BV PB5)

/-- `#define DIG0_OFF ( PORTB &= ~_BV(PB0) )` -/
def DIG0_OFF (PORTB : Nat) : Nat := and_assign PORTB (int_not (_BV PB0))

/-- `#define DIG1_OFF ( PORTB &= ~_BV(PB3) )` -/
def DIG1_OFF (PORTB : Nat) : Nat := and_assign PORTB (int_not (_BV PB3))

/-- `#define DIG2_OFF ( PORTB &= ~_BV(PB2) )` -/
def DIG2_OFF (PORTB : Nat) : Nat := and_assign PORTB (int_not (_BV PB2))

/-- `#define DIG0_ON ( PORTB |= _BV(PB0) )` -/
def DIG0_ON (PORTB : Nat) : Nat := or_assign PORTB (_BV PB0)

/-- `#define DIG1_ON ( PORTB |= _BV(PB3) )` -/
def DIG1_ON (PORTB : Nat) : Nat := or_assign PORTB (_BV PB3)

/-- `#define DIG2_ON ( PORTB |= _BV(PB2) )` -/
def DIG2_ON (PORTB : Nat) : Nat := or_assign PORTB (_BV PB2)

/-- `#define TRIAC_ON ( PORTB &= ~_BV(PB1) )` -/
def TRIAC_ON (PORTB : Nat) : Nat := and_assign PORTB (int_not (_BV PB1))

/-- `#define HEATER_ON TRIAC_ON` -/
def HEATER_ON (PORTB : Nat) : Nat := TRIAC_ON PORTB

/-- `#define TRIAC_OFF ( PORTB |= _BV(PB1) )` -/
def TRIAC_OFF (PORTB : Nat) : Nat := or_assign PORTB (_BV PB1)

/-- `#define HEATER_OFF TRIAC_OFF` -/
def HEATER_OFF (PORTB : Nat) : Nat := TRIAC_OFF PORTB

/-- `#define SW0_PRESSED ( !(PINC & _BV(PC3)) ) //up` -/
def SW0_PRESSED (PINC : Nat) : Nat := c_not (PINC &&& _BV PC3)

/-- `#define SW1_PRESSED ( !(PINC & _BV(PC2)) ) //down` -/
def SW1_PRESSED (PINC : Nat) : Nat := c_not (PINC &&& _BV PC2)

/-- `#define REEDSW_CLOSED ( !(PINC & _BV(PC4)) ) //handtool in cradle` -/
def REEDSW_CLOSED (PINC : Nat) : Nat := c_not (PINC &&& _BV PC4)

/-- `#define REEDSW_OPEN ( PINC & _BV(PC4) )` -/
def REEDSW_OPEN (PINC : Nat) : Nat := PINC &&& _BV PC4

/-- The port B bit each output macro pair drives, in the order of the header:
fan, fan-max, digit 0, digit 1, digit 2, triac. -/
def OUTPUT_LINES : List Nat := [PB4, PB5, PB0, PB3, PB2, PB1]

/-! ## Constants (lines 96 to 136 of the header) -/

/-- `#define HEATER_DUTY_CYCLE_MAX 512L` -/
def HEATER_DUTY_CYCLE_MAX : Int := 512

/-- `#define PWM_CYCLES 512L` -/
def PWM_CYCLES : Int := 512

/-- `#define SAFE_TO_TOUCH_TEMP 40` -/
def SAFE_TO_TOUCH_TEMP : Int := 40

/-- `#define FAN_OFF_TEMP 45` -/
def FAN_OFF_TEMP : Int := 45

/-- `#define FAN_ON_TEMP 60` -/
def FAN_ON_TEMP : Int := 60

/-- `#define FAN_OFF_TEMP_FANONLY (SAFE_TO_TOUCH_TEMP - 2)` -/
def FAN_OFF_TEMP_FANONLY : Int := SAFE_TO_TOUCH_TEMP - 2

/-- `#define KEY_UP 3` -/
def KEY_UP : Nat := 3

/-- `#define KEY_DOWN 2` -/
def KEY_DOWN : Nat := 2

/-- `#define ALL_KEYS (1<<KEY_DOWN | 1<<KEY_UP)` -/
def ALL_KEYS : Nat := (1 <<< KEY_DOWN) ||| (1 <<< KEY_UP)

/-- `#define REPEAT_MASK (1<<KEY_DOWN | 1<<KEY_UP)` -/
def REPEAT_MASK : Nat := (1 <<< KEY_DOWN) ||| (1 <<< KEY_UP)

/-- `#define REPEAT_START 20`, in ticks. -/
def REPEAT_START : Nat := 20

/-- `#define REPEAT_NEXT 8`, in ticks. -/
def REPEAT_NEXT : Nat := 8

/-- The tick period the comments of lines 135 and 136 name, `20.48ms`, in
units of 10 microseconds. -/
def TICK_10US : Nat := 2048

/-- The same tick period in milliseconds, as a rational: `20.48`. -/
def TICK_MS : ℚ := 2048 / 100

/-- The bits of an 8-bit mask that are set, lowest first. -/
def set_bits (m : Nat) : List Nat := (List.range 8).filter (fun i => m.testBit i)

/-! ## Thresholds and timing constants -/

/-- C1: the fan-off threshold lies strictly below the fan-on threshold
(45 < 60); no temperature is at once below the fan-off threshold and above the
fan-on threshold; and some temperature lies between the two thresholds, where
neither fires. -/
theorem fan_hysteresis_band_nonempty :
    FAN_OFF_TEMP = 45 ∧ FAN_ON_TEMP = 60 ∧ FAN_OFF_TEMP < FAN_ON_TEMP ∧
    (∀ t : Int, ¬ (t < FAN_OFF_TEMP ∧ t > FAN_ON_TEMP)) ∧
    (∃ t : Int, FAN_OFF_TEMP ≤ t ∧ t ≤ FAN_ON_TEMP ∧
      ¬ t < FAN_OFF_TEMP ∧ ¬ t > FAN_ON_TEMP) := by
  refine ⟨rfl, rfl, by decide, ?_, ⟨50, by decide, by decide, by decide, by decide⟩⟩
  intro t ⟨h1, h2⟩
  simp only [FAN_OFF_TEMP, FAN_ON_TEMP] at h1 h2
  omega

/-- C2 (as stated, refuted): the fan-only shut-off threshold is not the
safe-to-touch threshold; at 38 degrees the temperature is below the
safe-to-touch threshold but not below the fan-only shut-off threshold. -/
theorem fanonly_threshold_differs_from_safe_to_touch :
    FAN_OFF_TEMP_FANONLY ≠ SAFE_TO_TOUCH_TEMP ∧
    ¬ ((38 : Int) < FAN_OFF_TEMP_FANONLY ↔ (38 : Int) < SAFE_TO_TOUCH_TEMP) := by
  constructor <;> decide

/-- C2 (amended): the fan-only shut-off threshold is the safe-to-touch
threshold minus 2 (38); a temperature is below it exactly when it is more than
2 below the safe-to-touch threshold, and then it is below the safe-to-touch
threshold as well. -/
theorem fanonly_threshold_two_below_safe_to_touch (t : Int) :
    FAN_OFF_TEMP_FANONLY = SAFE_TO_TOUCH_TEMP - 2 ∧ FAN_OFF_TEMP_FANONLY = 38 ∧
    (t < FAN_OFF_TEMP_FANONLY ↔ t + 2 < SAFE_TO_TOUCH_TEMP) ∧
    (t < FAN_OFF_TEMP_FANONLY → t < SAFE_TO_TOUCH_TEMP) := by
  refine ⟨rfl, rfl, ?_, ?_⟩
  · simp only [FAN_OFF_TEMP_FANONLY, SAFE_TO_TOUCH_TEMP]
    omega
  · simp only [FAN_OFF_TEMP_FANONLY, SAFE_TO_TOUCH_TEMP]
    omega

/-- Witness of C2 (amended) at 37 degrees. -/
theorem fanonly_threshold_two_below_safe_to_touch_witness :
    (37 : Int) < FAN_OFF_TEMP_FANONLY ∧ (37 : Int) < SAFE_TO_TOUCH_TEMP :=
  ⟨by decide, (fanonly_threshold_two_below_safe_to_touch 37).2.2.2 (by decide)⟩

/-- C3: the heater duty maximum equals the number of cycles of one control
cycle, both are 512, so a duty between 0 and the maximum is between 0 and the
cycle length. -/
theorem heater_duty_within_cycle (d : Int) (h0 : 0 ≤ d)
    (h1 : d ≤ HEATER_DUTY_CYCLE_MAX) :
    HEATER_DUTY_CYCLE_MAX = PWM_CYCLES ∧ HEATER_DUTY_CYCLE_MAX = 512 ∧
    PWM_CYCLES = 512 ∧ 0 ≤ d ∧ d ≤ PWM_CYCLES :=
  ⟨rfl, rfl, rfl, h0, h1⟩

/-- Witness of C3 at the largest duty, 512. -/
theorem heater_duty_within_cycle_witness :
    (0 : Int) ≤ 512 ∧ (512 : Int) ≤ HEATER_DUTY_CYCLE_MAX ∧ (512 : Int) ≤ PWM_CYCLES :=
  ⟨by decide, by decide,
    (heater_duty_within_cycle 512 (by decide) (by decide)).2.2.2.2⟩

/-- C4 (the code at the claim): `REPEAT_NEXT` is 8 ticks, which at the
20.48 ms tick is 163.84 ms (16384 units of 10 microseconds), not the
122.88 ms (12288 units) that 6 ticks last. -/
theorem repeat_next_is_eight_ticks :
    REPEAT_NEXT = 8 ∧ REPEAT_NEXT * TICK_10US = 16384 ∧
    REPEAT_NEXT * TICK_10US ≠ 12288 ∧ 6 * TICK_10US = 12288 := by
  decide

/-- C5 (as stated, refuted): `REPEAT_START` is below the ceiling of
410 ms over the 20.48 ms tick period, which is 21. -/
theorem repeat_start_below_ceil_410 :
    ¬ ((⌈(410 : ℚ) / TICK_MS⌉ : ℤ) ≤ (REPEAT_START : ℤ)) ∧
    (⌈(410 : ℚ) / TICK_MS⌉ : ℤ) = 21 := by
  constructor
  · rw [Int.ceil_le]
    norm_num [TICK_MS, REPEAT_START]
  · rw [Int.ceil_eq_iff]
    norm_num [TICK_MS]

/-- C5 (amended): `REPEAT_START` is 20 ticks, which at the 20.48 ms tick
period last 409.6 ms; it is at least the ceiling of 409.6 ms over the tick
period, and it is the floor of 410 ms over the tick period. -/
theorem repeat_start_is_floor_410 :
    REPEAT_START = 20 ∧ (REPEAT_START : ℚ) * TICK_MS = 4096 / 10 ∧
    (⌈(4096 / 10 : ℚ) / TICK_MS⌉ : ℤ) ≤ (REPEAT_START : ℤ) ∧
    (⌊(410 : ℚ) / TICK_MS⌋ : ℤ) = (REPEAT_START : ℤ) := by
  refine ⟨rfl, ?_, ?_, ?_⟩
  · norm_num [TICK_MS, REPEAT_START]
  · rw [Int.ceil_le]
    norm_num [TICK_MS, REPEAT_START]
  · rw [Int.floor_eq_iff]
    norm_num [TICK_MS, REPEAT_START]

/-- C6: the repeat-start count exceeds the repeat-next count, so for every
positive tick period the initial delay is strictly longer than the steady
repeat interval. -/
theorem first_repeat_gap_longer (p : ℚ) (hp : 0 < p) :
    REPEAT_START > REPEAT_NEXT ∧
    (REPEAT_START : ℚ) * p > (REPEAT_NEXT : ℚ) * p := by
  refine ⟨by decide, ?_⟩
  have h : (REPEAT_NEXT : ℚ) < (REPEAT_START : ℚ) := by
    norm_num [REPEAT_NEXT, REPEAT_START]
  exact mul_lt_mul_of_pos_right h hp

/-- Witness of C6 at the tick period of the header, 20.48 ms. -/
theorem first_repeat_gap_longer_witness :
    (0 : ℚ) < TICK_MS ∧ (REPEAT_START : ℚ) * TICK_MS > (REPEAT_NEXT : ℚ) * TICK_MS :=
  ⟨by norm_num [TICK_MS], (first_repeat_gap_longer TICK_MS (by norm_num [TICK_MS])).2⟩


/-! ## Port macros -/

/-- A bit at position 8 or above of an 8-bit register value is clear. -/
theorem reg_high_bit (x i : Nat) (hx : x < 256) (hi : 8 ≤ i) : x.testBit i = false := by
  apply Nat.testBit_lt_two_pow
  calc x < 2 ^ 8 := hx
    _ ≤ 2 ^ i := Nat.pow_le_pow_right (by decide) hi

/-- The mask `_BV n` has bit `n` set and no other. -/
theorem testBit_BV (n i : Nat) : (_BV n).testBit i = decide (n = i) := by
  unfold _BV
  rw [Nat.one_shiftLeft, Nat.testBit_two_pow]

/-- Masking a value with `_BV n` gives zero exactly when bit `n` of the value
is clear. -/
theorem and_BV_eq_zero_iff (x n : Nat) : x &&& _BV n = 0 ↔ x.testBit n = false := by
  constructor
  · intro h
    have h1 : (x &&& _BV n).testBit n = false := by rw [h]; exact Nat.zero_testBit n
    rw [Nat.testBit_and, testBit_BV] at h1
    simpa using h1
  · intro h
    apply Nat.eq_of_testBit_eq
    intro i
    rw [Nat.testBit_and, testBit_BV, Nat.zero_testBit]
    by_cases hi : n = i
    · subst hi
      simp [h]
    · simp [hi]

/-- The C condition `!(v & _BV(n))` holds exactly when bit `n` of `v` is
clear. -/
theorem c_not_and_BV (x n : Nat) : c_not (x &&& _BV n) ≠ 0 ↔ x.testBit n = false := by
  rw [← and_BV_eq_zero_iff]
  unfold c_not
  split <;> simp_all

set_option maxRecDepth 100000 in
/-- On 8-bit register values and the low eight bit positions, the two triac
macros keep every bit but `PB1`. -/
theorem heater_frame_low :
    ∀ x, x < 256 → ∀ i, i < 8 → i ≠ PB1 →
      (HEATER_ON x).testBit i = x.testBit i ∧ (HEATER_OFF x).testBit i = x.testBit i := by
  decide

/-- A register store yields an 8-bit value. -/
theorem or_assign_lt (x m : Nat) : or_assign x m < 256 := Nat.mod_lt _ (by decide)

/-- A register store yields an 8-bit value. -/
theorem and_assign_lt (x m : Nat) : and_assign x m < 256 := Nat.mod_lt _ (by decide)

set_option maxRecDepth 100000 in
/-- C8: on every 8-bit value of `PORTB`, each of the fan, fan-max and digit
macros leaves the triac bit `PB1` as it was; `HEATER_ON` and `HEATER_OFF`
leave every bit other than `PB1` as it was; and the six lines the macros drive
(`PB4`, `PB5`, `PB0`, `PB3`, `PB2`, `PB1`) are pairwise distinct, each
setting macro driving exactly its own line. -/
theorem only_heater_macros_change_heater_line (x i : Nat) (hx : x < 256) (hi : i ≠ PB1) :
    ((FAN_ON x).testBit PB1 = x.testBit PB1 ∧ (FAN_OFF x).testBit PB1 = x.testBit PB1 ∧
     (FAN_MAX_ON x).testBit PB1 = x.testBit PB1 ∧
     (FAN_MAX_OFF x).testBit PB1 = x.testBit PB1 ∧
     (DIG0_ON x).testBit PB1 = x.testBit PB1 ∧ (DIG0_OFF x).testBit PB1 = x.testBit PB1 ∧
     (DIG1_ON x).testBit PB1 = x.testBit PB1 ∧ (DIG1_OFF x).testBit PB1 = x.testBit PB1 ∧
     (DIG2_ON x).testBit PB1 = x.testBit PB1 ∧ (DIG2_OFF x).testBit PB1 = x.testBit PB1) ∧
    ((HEATER_ON x).testBit i = x.testBit i ∧ (HEATER_OFF x).testBit i = x.testBit i) ∧
    (OUTPUT_LINES = [PB4, PB5, PB0, PB3, PB2, PB1] ∧ OUTPUT_LINES.Nodup ∧
     [FAN_OFF 0, FAN_MAX_ON 0, DIG0_ON 0, DIG1_ON 0, DIG2_ON 0, HEATER_OFF 0]
       = OUTPUT_LINES.map _BV) := by
  refine ⟨?_, ?_, rfl, by decide, by decide⟩
  · have key : ∀ y, y < 256 →
        ((FAN_ON y).testBit PB1 = y.testBit PB1 ∧ (FAN_OFF y).testBit PB1 = y.testBit PB1 ∧
         (FAN_MAX_ON y).testBit PB1 = y.testBit PB1 ∧
         (FAN_MAX_OFF y).testBit PB1 = y.testBit PB1 ∧
         (DIG0_ON y).testBit PB1 = y.testBit PB1 ∧ (DIG0_OFF y).testBit PB1 = y.testBit PB1 ∧
         (DIG1_ON y).testBit PB1 = y.testBit PB1 ∧ (DIG1_OFF y).testBit PB1 = y.testBit PB1 ∧
         (DIG2_ON y).testBit PB1 = y.testBit PB1 ∧
         (DIG2_OFF y).testBit PB1 = y.testBit PB1) := by
      decide
    exact key x hx
  · by_cases h8 : i < 8
    · exact heater_frame_low x hx i h8 hi
    · have h8 : 8 ≤ i := Nat.le_of_not_lt h8
      rw [reg_high_bit x i hx h8]
      exact ⟨reg_high_bit _ i (and_assign_lt _ _) h8, reg_high_bit _ i (or_assign_lt _ _) h8⟩


/-- Witness of C8 at `PORTB = 0xA5` and the fan bit, 4. -/
theorem only_heater_macros_change_heater_line_witness :
    (0xA5 : Nat) < 256 ∧ 4 ≠ PB1 ∧
    (HEATER_ON 0xA5).testBit 4 = (0xA5 : Nat).testBit 4 ∧
    (HEATER_OFF 0xA5).testBit 4 = (0xA5 : Nat).testBit 4 :=
  ⟨by decide, by decide,
    (only_heater_macros_change_heater_line 0xA5 4 (by decide) (by decide)).2.1⟩

/-- C7: `ALL_KEYS` and `REPEAT_MASK` are the same 8-bit mask; its set bits are
exactly the two distinct positions `KEY_DOWN` (2) and `KEY_UP` (3); these are
the `PINC` bits `PC2` and `PC3` that `SW1_PRESSED` and `SW0_PRESSED` test; the
reed-switch bit `PC4`, which `REEDSW_CLOSED` tests, is not in the mask; so a
mask restricted to `ALL_KEYS` has no bit set outside bits 2 and 3, and every
key of `ALL_KEYS` is in `REPEAT_MASK`. -/
theorem key_set_is_up_and_down (m i pinc : Nat) :
    (ALL_KEYS = REPEAT_MASK ∧ ALL_KEYS < 256 ∧
     set_bits ALL_KEYS = [KEY_DOWN, KEY_UP] ∧ (set_bits ALL_KEYS).length = 2 ∧
     (ALL_KEYS.testBit i = true ↔ i = KEY_DOWN ∨ i = KEY_UP)) ∧
    (KEY_UP = 3 ∧ KEY_DOWN = 2 ∧ KEY_UP ≠ KEY_DOWN ∧ KEY_UP = PC3 ∧ KEY_DOWN = PC2 ∧
     (SW0_PRESSED pinc ≠ 0 ↔ pinc.testBit KEY_UP = false) ∧
     (SW1_PRESSED pinc ≠ 0 ↔ pinc.testBit KEY_DOWN = false)) ∧
    ((REEDSW_CLOSED pinc ≠ 0 ↔ pinc.testBit PC4 = false) ∧
     ALL_KEYS.testBit PC4 = false) ∧
    ((m &&& ALL_KEYS).testBit i = true → i = KEY_DOWN ∨ i = KEY_UP) ∧
    (ALL_KEYS.testBit i = true → REPEAT_MASK.testBit i = true) := by
  have hbits : ALL_KEYS.testBit i = true ↔ i = KEY_DOWN ∨ i = KEY_UP := by
    simp only [ALL_KEYS, Nat.testBit_or, Nat.one_shiftLeft, Nat.testBit_two_pow,
      Bool.or_eq_true, decide_eq_true_eq]
    constructor <;> (intro h; rcases h with h | h <;> simp [h])
  refine ⟨⟨rfl, by decide, by decide, by decide, hbits⟩,
    ⟨rfl, rfl, by decide, rfl, rfl, c_not_and_BV pinc PC3, c_not_and_BV pinc PC2⟩,
    ⟨c_not_and_BV pinc PC4, by decide⟩, ?_, fun h => h⟩
  intro h
  rw [Nat.testBit_and, Bool.and_eq_true] at h
  exact hbits.mp h.2

/-- Witness of C7 at the full mask `0xFF`, bit 3, with the up key pressed
(`PINC = 0xF7`). -/
theorem key_set_is_up_and_down_witness :
    (0xFF &&& ALL_KEYS).testBit 3 = true ∧ ALL_KEYS.testBit 3 = true ∧
    (3 = KEY_DOWN ∨ 3 = KEY_UP) ∧ REPEAT_MASK.testBit 3 = true :=
  ⟨by decide, by decide,
    (key_set_is_up_and_down 0xFF 3 0xF7).2.2.2.1 (by decide),
    (key_set_is_up_and_down 0xFF 3 0xF7).2.2.2.2 (by decide)⟩

set_option maxRecDepth 100000 in
/-- C9: on every 8-bit value of `PORTB`, `HEATER_OFF` leaves the active-low
triac bit `PB1` set and `HEATER_ON` leaves it clear, each is idempotent, and
the later of the two overrides the earlier (`HEATER_OFF` after `HEATER_ON` is
`HEATER_OFF`, and conversely); the same for `FAN_OFF` and `FAN_ON` on the
active-low fan bit `PB4`. -/
theorem heater_and_fan_off_on_algebra (x : Nat) (hx : x < 256) :
    ((HEATER_OFF x).testBit PB1 = true ∧ (HEATER_ON x).testBit PB1 = false ∧
     HEATER_OFF (HEATER_OFF x) = HEATER_OFF x ∧ HEATER_ON (HEATER_ON x) = HEATER_ON x ∧
     HEATER_OFF (HEATER_ON x) = HEATER_OFF x ∧ HEATER_ON (HEATER_OFF x) = HEATER_ON x) ∧
    ((FAN_OFF x).testBit PB4 = true ∧ (FAN_ON x).testBit PB4 = false ∧
     FAN_OFF (FAN_OFF x) = FAN_OFF x ∧ FAN_ON (FAN_ON x) = FAN_ON x ∧
     FAN_OFF (FAN_ON x) = FAN_OFF x ∧ FAN_ON (FAN_OFF x) = FAN_ON x) := by
  have heater : ∀ y, y < 256 →
      ((HEATER_OFF y).testBit PB1 = true ∧ (HEATER_ON y).testBit PB1 = false ∧
       HEATER_OFF (HEATER_OFF y) = HEATER_OFF y ∧ HEATER_ON (HEATER_ON y) = HEATER_ON y ∧
       HEATER_OFF (HEATER_ON y) = HEATER_OFF y ∧
       HEATER_ON (HEATER_OFF y) = HEATER_ON y) := by
    decide
  have fan : ∀ y, y < 256 →
      ((FAN_OFF y).testBit PB4 = true ∧ (FAN_ON y).testBit PB4 = false ∧
       FAN_OFF (FAN_OFF y) = FAN_OFF y ∧ FAN_ON (FAN_ON y) = FAN_ON y ∧
       FAN_OFF (FAN_ON y) = FAN_OFF y ∧ FAN_ON (FAN_OFF y) = FAN_ON y) := by
    decide
  exact ⟨heater x hx, fan x hx⟩

/-- Witness of C9 at `PORTB = 0xA5`. -/
theorem heater_and_fan_off_on_algebra_witness :
    (0xA5 : Nat) < 256 ∧ HEATER_OFF (HEATER_ON 0xA5) = HEATER_OFF 0xA5 ∧
    HEATER_OFF 0xA5 = 0xA7 ∧ HEATER_ON 0xA7 = 0xA5 :=
  ⟨by decide, (heater_and_fan_off_on_algebra 0xA5 (by decide)).1.2.2.2.2.1,
    by decide, by decide⟩

/-- Exactly one of a C condition `!v` and the condition `v` holds. -/
theorem c_not_complement (v : Nat) :
    (c_not v ≠ 0 ∧ ¬ v ≠ 0) ∨ (¬ c_not v ≠ 0 ∧ v ≠ 0) := by
  unfold c_not
  by_cases h : v = 0 <;> simp [h]

set_option maxRecDepth 100000 in
/-- C10: for every value of `PINB` exactly one of `FAN_IS_ON` and
`FAN_IS_OFF` is non-zero, for every value of `PINC` exactly one of
`REEDSW_CLOSED` and `REEDSW_OPEN` is non-zero, and when `PINB` reads back the
8-bit value written to `PORTB`, `FAN_IS_ON` holds after `FAN_ON` and
`FAN_IS_OFF` holds after `FAN_OFF`. -/
theorem status_predicates_complementary (pinb pinc portb : Nat) (h : portb < 256) :
    ((FAN_IS_ON pinb ≠ 0 ∧ ¬ FAN_IS_OFF pinb ≠ 0) ∨
      (¬ FAN_IS_ON pinb ≠ 0 ∧ FAN_IS_OFF pinb ≠ 0)) ∧
    ((REEDSW_CLOSED pinc ≠ 0 ∧ ¬ REEDSW_OPEN pinc ≠ 0) ∨
      (¬ REEDSW_CLOSED pinc ≠ 0 ∧ REEDSW_OPEN pinc ≠ 0)) ∧
    FAN_IS_ON (FAN_ON portb) ≠ 0 ∧ FAN_IS_OFF (FAN_OFF portb) ≠ 0 := by
  have readback : ∀ y, y < 256 →
      FAN_IS_ON (FAN_ON y) ≠ 0 ∧ FAN_IS_OFF (FAN_OFF y) ≠ 0 := by
    decide
  exact ⟨c_not_complement (pinb &&& _BV PB4), c_not_complement (pinc &&& _BV PC4),
    readback portb h⟩

/-- Witness of C10 at `PORTB = 0x10` (fan off before the write). -/
theorem status_predicates_complementary_witness :
    (0x10 : Nat) < 256 ∧ FAN_IS_ON (FAN_ON 0x10) ≠ 0 ∧ FAN_IS_OFF (FAN_OFF 0x10) ≠ 0 :=
  ⟨by decide, (status_predicates_complementary 0x10 0x10 0x10 (by decide)).2.2⟩

end KKMoon858D
